import Mathlib

/-!
Shallow embedding of `src/spanish_translator.py`, a resilient batch-translation
script: retry with exponential backoff, primary/fallback providers, a
checkpointed row loop over a dataframe, and word-boundary-aware truncation.
Text values are modelled as `String` (lists of characters where index
arithmetic matters), missing dataframe cells as `Option`, Python exceptions as
an explicit datatype, and provider calls as attempt-indexed `Except` values.
-/

/-- Index of the last occurrence of `' '` in a character list, if any.
Models the split point of Python `s.rsplit(' ', 1)`. -/
def lastSpaceIdx : List Char → Option Nat
  | [] => none
  | c :: rest =>
    match lastSpaceIdx rest with
    | some i => some (i + 1)
    | none => if c = ' ' then some 0 else none

/-- Python `s.rsplit(' ', 1)[0]`: everything before the last space, or the
whole list when no space occurs. -/
def rsplitSpaceHead (l : List Char) : List Char :=
  match lastSpaceIdx l with
  | some i => l.take i
  | none => l

/-- `truncate_text` (src/spanish_translator.py lines 62-65):
if `len(text) <= max_length` return `text`; otherwise
`text[:max_length].rsplit(' ', 1)[0] + '...'`. -/
def truncate_text (text : List Char) (max_length : Nat) : List Char :=
  if text.length ≤ max_length then text
  else rsplitSpaceHead (text.take max_length) ++ "...".data

theorem truncate_text_of_le (text : List Char) (n : Nat) (h : text.length ≤ n) :
    truncate_text text n = text := by
  unfold truncate_text
  rw [if_pos h]

theorem rsplitSpaceHead_length_le (l : List Char) :
    (rsplitSpaceHead l).length ≤ l.length := by
  unfold rsplitSpaceHead
  cases lastSpaceIdx l with
  | none => exact le_refl _
  | some i =>
    simp only [List.length_take]
    exact min_le_right _ _

/-- Claim C2, counterexample: truncation is not idempotent.  With
`text = "abcd fgh"` and bound 5, one application yields `"abcd..."` (length 7,
already over the bound), and a second application truncates again, yielding
`"abcd...."`. -/
theorem c2_truncate_not_idempotent_cex :
    truncate_text (truncate_text "abcd fgh".data 5) 5 ≠
      truncate_text "abcd fgh".data 5 := by decide

/-- Claim C2 (amended): truncation is idempotent whenever the first
application's result is within the bound — in particular whenever the input
itself is within the bound.  In general idempotence fails, because the
backtrack-plus-ellipsis result can exceed the bound by up to 3 characters and
is then truncated again by a second application. -/
theorem c2_truncate_idempotent_amended (text : List Char) (n : Nat)
    (h : (truncate_text text n).length ≤ n) :
    truncate_text (truncate_text text n) n = truncate_text text n :=
  truncate_text_of_le _ n h

/-- Witness for `c2_truncate_idempotent_amended` at `"ab cdefgh"`, bound 8:
the first truncation gives `"ab..."` (length 5 ≤ 8), so a second application
leaves it unchanged. -/
theorem c2_truncate_idempotent_amended_witness :
    truncate_text (truncate_text "ab cdefgh".data 8) 8 =
      truncate_text "ab cdefgh".data 8 :=
  c2_truncate_idempotent_amended "ab cdefgh".data 8 (by decide)

/-- Claim C3, counterexample to the clause "the result's length exceeds
maxLength ... only in the case where no whitespace exists before the cut
point": for `"abcd efgh"` with bound 5 a space occurs inside the cut prefix
`"abcd "` yet the result `"abcd..."` has length 7 > 5. -/
theorem c3_truncate_overflow_with_space_cex :
    (' ' ∈ "abcd efgh".data.take 5) ∧
      5 < (truncate_text "abcd efgh".data 5).length := by decide

/-- Claim C3 (amended): texts within the bound are returned unchanged with no
ellipsis; longer texts are cut at `max_length` characters, backtracked to the
last space, and suffixed with `"..."`; the result never exceeds the bound by
more than 3 characters, but it can exceed the bound even when whitespace
exists before the cut point (whenever the last space sits within 3 characters
of the cut). -/
theorem c3_truncate_contract_amended (text : List Char) (n : Nat) :
    (text.length ≤ n → truncate_text text n = text) ∧
      (n < text.length →
        truncate_text text n = rsplitSpaceHead (text.take n) ++ "...".data ∧
          (truncate_text text n).length ≤ n + 3) := by
  constructor
  · intro h
    exact truncate_text_of_le text n h
  · intro h
    have hnot : ¬ text.length ≤ n := not_le.mpr h
    constructor
    · unfold truncate_text
      rw [if_neg hnot]
    · unfold truncate_text
      rw [if_neg hnot]
      have h1 : (rsplitSpaceHead (text.take n)).length ≤ (text.take n).length :=
        rsplitSpaceHead_length_le _
      have h2 : (text.take n).length ≤ n := by
        simp only [List.length_take]
        exact min_le_left _ _
      simp only [List.length_append]
      have h3 : (['.', '.', '.'] : List Char).length = 3 := rfl
      omega

/-- Witness for `c3_truncate_contract_amended` at `"ab cdefgh"`, bound 6: the
text is longer than the bound, so the truncation equals the
backtracked prefix plus ellipsis. -/
theorem c3_truncate_contract_amended_witness :
    truncate_text "ab cdefgh".data 6 =
      rsplitSpaceHead ("ab cdefgh".data.take 6) ++ "...".data :=
  ((c3_truncate_contract_amended "ab cdefgh".data 6).2 (by decide)).1

/-- Python `s.startswith(p)` on character lists. -/
def startsWithChars : List Char → List Char → Bool
  | [], _ => true
  | _ :: _, [] => false
  | p :: ps, s :: ss => p = s && startsWithChars ps ss

/-- Python `s.startswith(p)` on strings, as used at src lines 51 and 101. -/
def pyStartswith (s p : String) : Bool :=
  startsWithChars p.data s.data

theorem startsWithChars_append (p t : List Char) :
    startsWithChars p (p ++ t) = true := by
  induction p with
  | nil => rfl
  | cons c cs ih => simp [startsWithChars, ih]

/-- One run of `translate_with_backoff`, instrumented: the returned string,
the number of provider calls made, the list of back-off sleeps performed (in
units of `time.sleep`), and whether the final fall-through `return` after the
loop (src line 44) was reached. -/
structure BackoffResult where
  result : String
  attempts : Nat
  sleeps : List Nat
  fallthroughHit : Bool
deriving Repr, DecidableEq

/-- The `for attempt in range(max_retries)` loop of `translate_with_backoff`
(src lines 36-44), by structural recursion on the number of remaining
iterations (`remaining = max_retries - attempt` throughout).  `translate n`
models `translator.translate(text)` on the loop iteration with `attempt = n`:
`.ok t` is a normal return, `.error e` a raised exception with message `e`.
On a failure the code returns `"Translation failed: " ++ e` when
`attempt == max_retries - 1`, and otherwise sleeps `2 ^ attempt` and retries. -/
def backoffLoop (translate : Nat → Except String String) (max_retries : Nat) :
    Nat → Nat → BackoffResult
  | _, 0 => ⟨"Translation failed after maximum retries", 0, [], true⟩
  | attempt, remaining + 1 =>
    match translate attempt with
    | .ok t => ⟨t, 1, [], false⟩
    | .error e =>
      if attempt = max_retries - 1 then
        ⟨"Translation failed: " ++ e, 1, [], false⟩
      else
        let r := backoffLoop translate max_retries (attempt + 1) remaining
        ⟨r.result, r.attempts + 1, 2 ^ attempt :: r.sleeps, r.fallthroughHit⟩

/-- `translate_with_backoff(text, translator, max_retries)` (src lines 35-44).
A translator is modelled as a function of the text and the attempt number, so
that transient failures can differ between attempts.  The source calls it with
the default `max_retries = 5`. -/
def translate_with_backoff (text : String)
    (translator : String → Nat → Except String String)
    (max_retries : Nat) : BackoffResult :=
  backoffLoop (translator text) max_retries 0 max_retries

/-- The doubling back-off delays performed by `k` consecutive failed-and-retried
iterations starting at attempt number `attempt`: `2^attempt, 2^(attempt+1), …`. -/
def geomSleeps (attempt : Nat) : Nat → List Nat
  | 0 => []
  | k + 1 => 2 ^ attempt :: geomSleeps (attempt + 1) k

theorem backoffLoop_succ (t : Nat → Except String String)
    (mr attempt k : Nat) :
    backoffLoop t mr attempt (k + 1) =
      match t attempt with
      | .ok s => ⟨s, 1, [], false⟩
      | .error e =>
        if attempt = mr - 1 then
          ⟨"Translation failed: " ++ e, 1, [], false⟩
        else
          let r := backoffLoop t mr (attempt + 1) k
          ⟨r.result, r.attempts + 1, 2 ^ attempt :: r.sleeps, r.fallthroughHit⟩ := rfl

theorem backoffLoop_allFail (t : Nat → Except String String)
    (err : Nat → String) (h : ∀ n, t n = Except.error (err n)) (mr : Nat) :
    ∀ remaining attempt, attempt + remaining = mr → 0 < remaining →
      backoffLoop t mr attempt remaining =
        ⟨"Translation failed: " ++ err (mr - 1), remaining,
          geomSleeps attempt (remaining - 1), false⟩ := by
  intro remaining
  induction remaining with
  | zero => intro attempt _ hpos; omega
  | succ r ih =>
    intro attempt hsum _
    cases r with
    | zero =>
      have hlast : attempt = mr - 1 := by omega
      subst hlast
      rw [backoffLoop_succ, h (mr - 1)]
      simp [geomSleeps]
    | succ r' =>
      have hne : ¬ attempt = mr - 1 := by omega
      have hrec := ih (attempt + 1) (by omega) (by omega)
      rw [backoffLoop_succ, h attempt]
      simp only [if_neg hne, hrec, geomSleeps, Nat.add_sub_cancel]

/-- Claim C4, counterexample: with a provider that always fails and
`max_retries = 5`, the performed back-off sleeps are `[1, 2, 4, 8]` — there is
no sleep after the final failed attempt, so the claimed doubling sequence
`1, 2, 4, 8, 16` does not occur. -/
theorem c4_sleep_sequence_cex :
    (translate_with_backoff "Hola mundo" (fun _ _ => Except.error "boom") 5).sleeps
        = [1, 2, 4, 8] ∧
      ([1, 2, 4, 8] : List Nat) ≠ [1, 2, 4, 8, 16] := by decide

/-- The normal (non-raising) path of `translate_text(text, index)`
(src lines 46-54), instrumented with the total number of provider calls made.
`none` models a `NaN` cell (`pd.isna(text)`); the source passes
`max_retries = 5` implicitly through the default.  On a primary result that
starts with `"Translation failed"`, the same text is retried through the
fallback translator and that result is returned as-is.  `index` is used only
for logging in the source. -/
def translate_text_full (text : Option String) (index : Nat)
    (google_translator mymemory_translator : String → Nat → Except String String)
    (max_retries : Nat) : String × Nat :=
  match text with
  | none => ("", 0)
  | some t =>
    if t = "" then ("", 0)
    else
      let g := translate_with_backoff t google_translator max_retries
      if pyStartswith g.result "Translation failed" then
        let m := translate_with_backoff t mymemory_translator max_retries
        (m.result, g.attempts + m.attempts)
      else
        (g.result, g.attempts)

/-- `translate_text(text, index)` (src lines 46-54): the string written back
into the dataframe. -/
def translate_text (text : Option String) (index : Nat)
    (google_translator mymemory_translator : String → Nat → Except String String)
    (max_retries : Nat) : String :=
  (translate_text_full text index google_translator mymemory_translator
    max_retries).1

theorem pyStartswith_failed_marker (e : String) :
    pyStartswith ("Translation failed: " ++ e) "Translation failed" = true := by
  unfold pyStartswith
  rw [String.data_append]
  have h : ("Translation failed: ").data
      = ("Translation failed").data ++ (": ").data := rfl
  rw [h, List.append_assoc]
  exact startsWithChars_append _ _

/-- Claim C4 (amended): against a provider whose `translate` fails on every
attempt, `translate_with_backoff` with `max_retries = 5` makes exactly 5
provider attempts and returns `"Translation failed: <error>"` embedding the
last error; the sleeps performed between attempts are `1, 2, 4, 8` time units
(`2^attempt`, with no sleep after the final failed attempt, so `16` never
occurs); and `translate_text` then invokes the fallback provider, returning its
result after those 5 primary attempts. -/
theorem c4_backoff_amended (text : String)
    (translator mymemory_translator : String → Nat → Except String String)
    (err : Nat → String) (index : Nat)
    (hfail : ∀ n, translator text n = Except.error (err n))
    (hne : text ≠ "") :
    translate_with_backoff text translator 5 =
        ⟨"Translation failed: " ++ err 4, 5, [1, 2, 4, 8], false⟩ ∧
      translate_text_full (some text) index translator mymemory_translator 5 =
        ((translate_with_backoff text mymemory_translator 5).result,
          5 + (translate_with_backoff text mymemory_translator 5).attempts) := by
  have h1 : translate_with_backoff text translator 5 =
      ⟨"Translation failed: " ++ err 4, 5, [1, 2, 4, 8], false⟩ := by
    have := backoffLoop_allFail (translator text) err hfail 5 5 0 (by omega)
      (by omega)
    unfold translate_with_backoff
    rw [this]
    simp [geomSleeps]
  refine ⟨h1, ?_⟩
  unfold translate_text_full
  simp only [if_neg hne, h1]
  rw [if_pos (pyStartswith_failed_marker (err 4))]

/-- Witness for `c4_backoff_amended`: a provider that always raises `"boom"`
on the text `"Hola"`, with the fallback provider failing identically, yields
the failure marker after 5 attempts and sleeps `[1, 2, 4, 8]`, and the
fallback is invoked for 5 further attempts (10 calls in total). -/
theorem c4_backoff_amended_witness :
    translate_with_backoff "Hola" (fun _ _ => Except.error "boom") 5 =
        ⟨"Translation failed: boom", 5, [1, 2, 4, 8], false⟩ ∧
      translate_text_full (some "Hola") 0 (fun _ _ => Except.error "boom")
          (fun _ _ => Except.error "boom") 5 = ("Translation failed: boom", 10) := by
  have h := c4_backoff_amended "Hola" (fun _ _ => Except.error "boom")
    (fun _ _ => Except.error "boom") (fun _ => "boom") 0 (fun _ => rfl)
    (by decide)
  refine ⟨h.1, ?_⟩
  rw [h.2, h.1]
  decide

theorem backoffLoop_succ_ok {t : Nat → Except String String} {s : String}
    (mr attempt k : Nat) (h : t attempt = Except.ok s) :
    backoffLoop t mr attempt (k + 1) = ⟨s, 1, [], false⟩ := by
  rw [backoffLoop_succ, h]

theorem backoffLoop_succ_err {t : Nat → Except String String} {e : String}
    (mr attempt k : Nat) (h : t attempt = Except.error e) :
    backoffLoop t mr attempt (k + 1) =
      if attempt = mr - 1 then
        ⟨"Translation failed: " ++ e, 1, [], false⟩
      else
        ⟨(backoffLoop t mr (attempt + 1) k).result,
          (backoffLoop t mr (attempt + 1) k).attempts + 1,
          2 ^ attempt :: (backoffLoop t mr (attempt + 1) k).sleeps,
          (backoffLoop t mr (attempt + 1) k).fallthroughHit⟩ := by
  rw [backoffLoop_succ, h]

theorem backoffLoop_result_spec (t : Nat → Except String String) (mr : Nat) :
    ∀ remaining attempt,
      (∃ i, attempt ≤ i ∧ i < attempt + remaining ∧
          t i = Except.ok (backoffLoop t mr attempt remaining).result) ∨
        pyStartswith (backoffLoop t mr attempt remaining).result
          "Translation failed" = true := by
  intro remaining
  induction remaining with
  | zero =>
    intro attempt
    right
    show pyStartswith "Translation failed after maximum retries"
      "Translation failed" = true
    decide
  | succ k ih =>
    intro attempt
    cases ht : t attempt with
    | ok s =>
      left
      refine ⟨attempt, le_refl _, by omega, ?_⟩
      rw [backoffLoop_succ_ok mr attempt k ht, ht]
    | error e =>
      by_cases hlast : attempt = mr - 1
      · right
        rw [backoffLoop_succ_err mr attempt k ht, if_pos hlast]
        exact pyStartswith_failed_marker e
      · rw [backoffLoop_succ_err mr attempt k ht, if_neg hlast]
        rcases ih (attempt + 1) with ⟨i, hle, hlt, hok⟩ | hmark
        · exact Or.inl ⟨i, by omega, by omega, hok⟩
        · exact Or.inr hmark

/-- Claim C5: for every provider, text and retry bound, every provider failure
is absorbed inside the retry loop and `translate_with_backoff` returns a
string that is either the translated text of some successful attempt or a
terminal failure-marker string (one starting with `"Translation failed"`,
which covers both the per-attempt marker and the post-loop marker). -/
theorem c5_backoff_total (text : String)
    (translator : String → Nat → Except String String) (max_retries : Nat) :
    (∃ i, i < max_retries ∧ translator text i =
        Except.ok ((translate_with_backoff text translator max_retries).result)) ∨
      pyStartswith (translate_with_backoff text translator max_retries).result
        "Translation failed" = true := by
  rcases backoffLoop_result_spec (translator text) max_retries max_retries 0 with
    ⟨i, _, hlt, hok⟩ | hmark
  · exact Or.inl ⟨i, by omega, hok⟩
  · exact Or.inr hmark

theorem backoffLoop_no_fallthrough (t : Nat → Except String String) (mr : Nat) :
    ∀ remaining attempt, attempt + remaining = mr → 0 < remaining →
      (backoffLoop t mr attempt remaining).fallthroughHit = false := by
  intro remaining
  induction remaining with
  | zero => intro attempt _ hpos; omega
  | succ k ih =>
    intro attempt hsum _
    cases ht : t attempt with
    | ok s => rw [backoffLoop_succ_ok mr attempt k ht]
    | error e =>
      by_cases hlast : attempt = mr - 1
      · rw [backoffLoop_succ_err mr attempt k ht, if_pos hlast]
      · rw [backoffLoop_succ_err mr attempt k ht, if_neg hlast]
        exact ih (attempt + 1) (by omega) (by omega)

/-- Claim C10: when `max_retries ≥ 1` the fall-through `return` after the loop
(src line 44, the generic `"Translation failed after maximum retries"` string)
is never reached, since the final iteration returns either the translation or
the `"Translation failed: <error>"` marker; when `max_retries = 0` the
function reaches it directly, making zero provider calls. -/
theorem c10_fallthrough_unreachable (text : String)
    (translator : String → Nat → Except String String) (max_retries : Nat) :
    (1 ≤ max_retries →
        (translate_with_backoff text translator max_retries).fallthroughHit
          = false) ∧
      (max_retries = 0 →
        translate_with_backoff text translator max_retries =
          ⟨"Translation failed after maximum retries", 0, [], true⟩) := by
  constructor
  · intro h
    exact backoffLoop_no_fallthrough (translator text) max_retries max_retries 0
      (by omega) (by omega)
  · intro h
    subst h
    rfl

/-- Witness for `c10_fallthrough_unreachable`: with an always-failing provider,
at `max_retries = 5` the fall-through is not reached, and at `max_retries = 0`
the generic string is returned with zero provider calls. -/
theorem c10_fallthrough_unreachable_witness :
    (translate_with_backoff "Hola" (fun _ _ => Except.error "x") 5).fallthroughHit
        = false ∧
      translate_with_backoff "Hola" (fun _ _ => Except.error "x") 0 =
        ⟨"Translation failed after maximum retries", 0, [], true⟩ :=
  ⟨(c10_fallthrough_unreachable "Hola" (fun _ _ => Except.error "x") 5).1
      (by omega),
    (c10_fallthrough_unreachable "Hola" (fun _ _ => Except.error "x") 0).2 rfl⟩

/-- A raised Python exception, as relevant to `translate_text`'s handlers:
a `requests.exceptions.RequestException`, any other `Exception` (both carry a
message), or a `NameError` for an unbound name. -/
inductive PyExc where
  | requestException (msg : String)
  | exception (msg : String)
  | nameError (nm : String)
deriving Repr, DecidableEq

/-- The names bound at module level by the import statements of
src/spanish_translator.py lines 1-7.  The module never imports `requests`. -/
def moduleImports : List String :=
  ["pd", "GoogleTranslator", "time", "tqdm", "logging", "os",
    "ThreadPoolExecutor", "as_completed"]

/-- The `except` clauses of `translate_text` (src lines 55-60).  Python
evaluates the handler class expression `requests.exceptions.RequestException`
only when an exception reaches the handler; since `requests` is not bound at
module level, that lookup itself raises `NameError('requests')`, which replaces
the in-flight exception and propagates out of `translate_text`.  Were the name
bound, a `RequestException` would be converted to `"Network error: <e>"` and
any other exception to `"Unexpected error: <e>"`. -/
def translate_text_handle (index : Nat) (e : PyExc) : Except PyExc String :=
  if moduleImports.contains "requests" then
    match e with
    | .requestException m => .ok ("Network error: " ++ m)
    | .exception m => .ok ("Unexpected error: " ++ m)
    | .nameError nm =>
      .ok ("Unexpected error: name '" ++ nm ++ "' is not defined")
  else
    .error (.nameError "requests")

/-- The `try`/`except` structure of `translate_text` (src lines 49-60): `body`
is the outcome of the `try` block (src lines 50-54), `.error e` modelling an
exception escaping the retry boundary.  The result is `.ok s` when
`translate_text` returns the string `s`, and `.error e` when an exception
propagates out of `translate_text` itself. -/
def translate_text_try (body : Except PyExc String) (index : Nat) :
    Except PyExc String :=
  match body with
  | .ok r => .ok r
  | .error e => translate_text_handle index e

/-- Claim C6, code-bug evidence: a transport-layer error escaping the retry
boundary is not converted into a marker string — because `requests` is never
imported, evaluating the first `except` clause raises `NameError`, which
propagates out of `translate_text` and would abort the whole batch. -/
theorem c6_handler_nameError :
    translate_text_try
        (Except.error (PyExc.requestException "Connection timed out")) 0 =
      Except.error (PyExc.nameError "requests") := rfl

/-- Python `str()` applied to a dataframe cell holding either a string or a
missing value: `pd.read_csv` represents a missing cell as the float `nan`,
and `str(nan)` is the four-character string `"nan"` (src line 73 applies
`str` to `row['summary']` before any `isna` test). -/
def pyStr : Option String → String
  | some s => s
  | none => "nan"

/-- `truncate_text` lifted to `String` as used by the row loop. -/
def truncateS (s : String) (n : Nat) : String :=
  ⟨truncate_text s.data n⟩

/-- One dataframe row: the `summary` source column and the
`translated_summary` column, `none` modelling a missing (`NaN`) cell. -/
structure Row where
  summary : Option String
  translated_summary : Option String
deriving Repr, DecidableEq

/-- The observable trace of the row loop: the final rows, the indices at
which `df.to_csv(checkpoint_file)` ran (in order), and one
`(index, provider-call count)` entry per row that was processed (not
skipped), also in order. -/
structure RunTrace where
  rows : List Row
  saves : List Nat
  callLog : List (Nat × Nat)
deriving Repr, DecidableEq

/-- The row loop of src lines 71-90, starting at row index `index`.  A row is
processed only when `pd.isna(row['translated_summary'])` holds; processing
truncates `str(row['summary'])` to 150, translates it, truncates the result
to 150 and stores it; a checkpoint is written inside the processed branch
when `index % 10 == 0`.  The per-row `time.sleep(1)` and progress printing
have no effect on the data and are not recorded. -/
def process_rows (google_translator mymemory_translator :
    String → Nat → Except String String) (max_retries : Nat) :
    Nat → List Row → RunTrace
  | _, [] => ⟨[], [], []⟩
  | index, row :: rest =>
    match row.translated_summary with
    | none =>
      let original_text := truncateS (pyStr row.summary) 150
      let tc := translate_text_full (some original_text) index
        google_translator mymemory_translator max_retries
      let row' : Row := { row with translated_summary := some (truncateS tc.1 150) }
      let r := process_rows google_translator mymemory_translator max_retries
        (index + 1) rest
      ⟨row' :: r.rows,
        (if index % 10 = 0 then [index] else []) ++ r.saves,
        (index, tc.2) :: r.callLog⟩
    | some _ =>
      let r := process_rows google_translator mymemory_translator max_retries
        (index + 1) rest
      ⟨row :: r.rows, r.saves, r.callLog⟩

/-- The full run over a dataframe (src lines 71-90 with `index` starting
at 0; the source always uses `max_retries = 5` via the default). -/
def run_batch (google_translator mymemory_translator :
    String → Nat → Except String String) (rows : List Row) : RunTrace :=
  process_rows google_translator mymemory_translator 5 0 rows

/-- The failure-marker prefixes tested by the statistics code (src line 101). -/
def failureMarkers : List String :=
  ["Translation failed", "Network error", "Unexpected error"]

/-- `RunStatistics` (src lines 99-101): total row count, count of rows with a
non-absent `translated_summary`, and count of rows whose `translated_summary`
starts with one of the failure-marker prefixes (`na=False`: absent cells do
not count as failed). -/
structure RunStatistics where
  total : Nat
  successful : Nat
  failed : Nat
deriving Repr, DecidableEq

def computeStats (rows : List Row) : RunStatistics where
  total := rows.length
  successful := rows.countP (fun r => r.translated_summary.isSome)
  failed := rows.countP (fun r =>
    match r.translated_summary with
    | some s => failureMarkers.any (fun p => pyStartswith s p)
    | none => false)

/-- A stub primary provider mapping `"Hola mundo"` to `"Hello world"` and
failing on any other text. -/
def stubPrimary : String → Nat → Except String String :=
  fun t _ => if t = "Hola mundo" then .ok "Hello world" else .error "unsupported"

/-- A stub fallback provider that fails on every call. -/
def stubFallback : String → Nat → Except String String :=
  fun _ _ => .error "unsupported"

/-- The canonical three-row dataset: summaries `"Hola mundo"`, `""`, absent;
all `translated_summary` cells initially absent. -/
def threeRowInput : List Row :=
  [⟨some "Hola mundo", none⟩, ⟨some "", none⟩, ⟨none, none⟩]

/-- Claim C1, code-bug evidence: on the canonical three-row input the loop
applies `str` to the absent summary before the `pd.isna` test, so the third
row is translated as the literal string `"nan"`: the providers are called 10
times for it (5 primary + 5 fallback attempts) and its `translated_summary`
becomes the failure marker `"Translation failed: unsupported"`, not `""`.
The statistics still report 3 total and 3 successful (every row holds a
string), with the marker row also counted as failed. -/
theorem c1_absent_summary_not_shortcircuited :
    (run_batch stubPrimary stubFallback threeRowInput).rows.map
        (fun r => r.translated_summary) =
      [some "Hello world", some "", some "Translation failed: unsupported"] ∧
    (run_batch stubPrimary stubFallback threeRowInput).callLog =
      [(0, 1), (1, 0), (2, 10)] ∧
    computeStats (run_batch stubPrimary stubFallback threeRowInput).rows =
      ⟨3, 3, 1⟩ := by
  refine ⟨?_, ?_, ?_⟩ <;> decide

theorem callLog_index_ge (g m : String → Nat → Except String String)
    (mr : Nat) :
    ∀ (rows : List Row) (index j n : Nat),
      (j, n) ∈ (process_rows g m mr index rows).callLog → index ≤ j := by
  intro rows
  induction rows with
  | nil =>
    intro index j n h
    simp [process_rows] at h
  | cons row rest ih =>
    intro index j n h
    obtain ⟨s, ts⟩ := row
    cases ts with
    | none =>
      simp only [process_rows, List.mem_cons, Prod.mk.injEq] at h
      rcases h with ⟨hj, _⟩ | hmem
      · omega
      · have := ih (index + 1) j n hmem
        omega
    | some v =>
      simp only [process_rows] at h
      have := ih (index + 1) j n h
      omega

/-- Claim C7: a row whose `translated_summary` is already set (any string,
failure markers included) is left exactly as it was and no `translate_text`
invocation — hence no provider call — happens for its index; so resuming
never re-processes a row that was already `Done` in the checkpoint. -/
theorem c7_resume_skip (g m : String → Nat → Except String String)
    (mr index : Nat) (rows : List Row) :
    ∀ i r v, rows[i]? = some r → r.translated_summary = some v →
      (process_rows g m mr index rows).rows[i]? = some r ∧
        ∀ n, (index + i, n) ∉ (process_rows g m mr index rows).callLog := by
  induction rows generalizing index with
  | nil =>
    intro i r v hget _
    simp at hget
  | cons row rest ih =>
    intro i r v hget hts
    cases i with
    | zero =>
      simp only [List.getElem?_cons_zero, Option.some.injEq] at hget
      subst hget
      constructor
      · simp only [process_rows, hts, List.getElem?_cons_zero]
      · intro n hmem
        simp only [process_rows, hts] at hmem
        have := callLog_index_ge g m mr rest (index + 1) (index + 0) n hmem
        omega
    | succ i' =>
      simp only [List.getElem?_cons_succ] at hget
      have hih := ih (index + 1) i' r v hget hts
      cases hrow : row.translated_summary with
      | none =>
        constructor
        · simp only [process_rows, hrow, List.getElem?_cons_succ]
          exact hih.1
        · intro n hmem
          simp only [process_rows, hrow, List.mem_cons, Prod.mk.injEq] at hmem
          rcases hmem with ⟨hj, _⟩ | hmem
          · omega
          · have h2 := hih.2 n
            have : index + (i' + 1) = index + 1 + i' := by omega
            rw [this] at hmem
            exact h2 hmem
      | some w =>
        constructor
        · simp only [process_rows, hrow, List.getElem?_cons_succ]
          exact hih.1
        · intro n hmem
          simp only [process_rows, hrow] at hmem
          have h2 := hih.2 n
          have : index + (i' + 1) = index + 1 + i' := by omega
          rw [this] at hmem
          exact h2 hmem

/-- Witness for `c7_resume_skip`: a single-row dataset whose row already
carries `"done"` is returned unchanged and its index never appears in the
call log. -/
theorem c7_resume_skip_witness :
    (process_rows stubPrimary stubFallback 5 0
        [⟨some "Hola mundo", some "done"⟩]).rows[0]? =
        some ⟨some "Hola mundo", some "done"⟩ ∧
      (0 + 0, 1) ∉ (process_rows stubPrimary stubFallback 5 0
        [⟨some "Hola mundo", some "done"⟩]).callLog := by
  have h := c7_resume_skip stubPrimary stubFallback 5 0
    [⟨some "Hola mundo", some "done"⟩] 0 ⟨some "Hola mundo", some "done"⟩
    "done" (by decide) rfl
  exact ⟨h.1, h.2 1⟩

theorem mem_saves (g m : String → Nat → Except String String) (mr : Nat) :
    ∀ (rows : List Row) (index j : Nat),
      j ∈ (process_rows g m mr index rows).saves ↔
        ∃ i r, rows[i]? = some r ∧ r.translated_summary = none ∧
          j = index + i ∧ j % 10 = 0 := by
  intro rows
  induction rows with
  | nil =>
    intro index j
    simp [process_rows]
  | cons row rest ih =>
    intro index j
    obtain ⟨s, ts⟩ := row
    cases ts with
    | none =>
      simp only [process_rows]
      constructor
      · intro h
        rcases List.mem_append.mp h with h0 | hrec
        · by_cases hm : index % 10 = 0
          · rw [if_pos hm] at h0
            simp only [List.mem_singleton] at h0
            subst h0
            exact ⟨0, ⟨s, none⟩, by simp, rfl, by omega, hm⟩
          · rw [if_neg hm] at h0
            simp at h0
        · rcases (ih (index + 1) j).mp hrec with ⟨i, r, hget, hnone, hj, hmod⟩
          exact ⟨i + 1, r, by simpa using hget, hnone, by omega, hmod⟩
      · rintro ⟨i, r, hget, hnone, hj, hmod⟩
        apply List.mem_append.mpr
        cases i with
        | zero =>
          left
          have hj0 : j = index := by omega
          subst hj0
          rw [if_pos hmod]
          simp
        | succ i' =>
          right
          simp only [List.getElem?_cons_succ] at hget
          exact (ih (index + 1) j).mpr ⟨i', r, hget, hnone, by omega, hmod⟩
    | some v =>
      simp only [process_rows]
      constructor
      · intro h
        rcases (ih (index + 1) j).mp h with ⟨i, r, hget, hnone, hj, hmod⟩
        exact ⟨i + 1, r, by simpa using hget, hnone, by omega, hmod⟩
      · rintro ⟨i, r, hget, hnone, hj, hmod⟩
        cases i with
        | zero =>
          simp only [List.getElem?_cons_zero, Option.some.injEq] at hget
          rw [← hget] at hnone
          simp at hnone
        | succ i' =>
          simp only [List.getElem?_cons_succ] at hget
          exact (ih (index + 1) j).mpr ⟨i', r, hget, hnone, by omega, hmod⟩

/-- Claim C8, counterexample: a row at index 0 whose `translated_summary` is
already set is skipped, and no checkpoint save is triggered at index 0 even
though `0 % 10 == 0` — the trigger sits inside the processed branch, so
skipped rows never checkpoint. -/
theorem c8_skipped_row_no_save_cex :
    (0 : Nat) % 10 = 0 ∧
      0 ∉ (run_batch stubPrimary stubFallback
        [⟨some "Hola mundo", some "done"⟩]).saves := by decide

/-- Claim C8 (amended): a checkpoint save is triggered exactly at the indices
`j` with `j % 10 == 0` whose row is actually processed this run (its
`translated_summary` absent); rows skipped as already translated trigger no
save even at multiples of 10.  In particular the index-0 edge case holds on a
fresh run: if row 0 is pending, a checkpoint is saved immediately after it is
processed. -/
theorem c8_saves_characterization
    (g m : String → Nat → Except String String) (rows : List Row) (j : Nat) :
    j ∈ (run_batch g m rows).saves ↔
      (∃ r, rows[j]? = some r ∧ r.translated_summary = none) ∧ j % 10 = 0 := by
  unfold run_batch
  rw [mem_saves]
  constructor
  · rintro ⟨i, r, hget, hnone, hj, hmod⟩
    have hij : i = j := by omega
    subst hij
    exact ⟨⟨r, hget, hnone⟩, hmod⟩
  · rintro ⟨⟨r, hget, hnone⟩, hmod⟩
    exact ⟨j, r, hget, hnone, by omega, hmod⟩

/-- Claim C9: every row of the output of the loop carries a non-absent
`translated_summary` — processed rows are overwritten with a string (real
translation, truncated translation, empty string or marker) and skipped rows
already carried one; so after a completed run no row is left unresolved. -/
theorem c9_coverage (g m : String → Nat → Except String String) (mr : Nat) :
    ∀ (rows : List Row) (index i : Nat) (r : Row),
      (process_rows g m mr index rows).rows[i]? = some r →
        r.translated_summary.isSome = true := by
  intro rows
  induction rows with
  | nil =>
    intro index i r h
    simp [process_rows] at h
  | cons row rest ih =>
    intro index i r h
    obtain ⟨s, ts⟩ := row
    cases ts with
    | none =>
      cases i with
      | zero =>
        simp only [process_rows, List.getElem?_cons_zero, Option.some.injEq] at h
        rw [← h]
        rfl
      | succ i' =>
        simp only [process_rows, List.getElem?_cons_succ] at h
        exact ih (index + 1) i' r h
    | some v =>
      cases i with
      | zero =>
        simp only [process_rows, List.getElem?_cons_zero, Option.some.injEq] at h
        rw [← h]
        rfl
      | succ i' =>
        simp only [process_rows, List.getElem?_cons_succ] at h
        exact ih (index + 1) i' r h

/-- Witness for `c9_coverage`: in a completed run over the canonical
three-row input the first output row carries a set `translated_summary`. -/
theorem c9_coverage_witness :
    (Row.mk (some "Hola mundo")
        (some "Hello world")).translated_summary.isSome = true :=
  c9_coverage stubPrimary stubFallback 5 threeRowInput 0 0
    ⟨some "Hola mundo", some "Hello world"⟩ (by decide)
